import Mathlib

/-!
Verification of `bindings/rust/build.rs` of the vendored tree-sitter-python
grammar (the build-orchestration shim that compiles the generated parser and
the hand-written scanner).

The driver is straight-line Rust code that configures two `cc::Build` jobs and
runs them.  We embed it shallowly:

* Rust `Path`/`OsStr` values become `OsStr`, which records whether the
  underlying bytes are valid UTF-8 (the only property `to_str` depends on).
* The `cc::Build` builder becomes the record `Build`, with one Lean function
  per builder method used by the driver, each accumulating configuration
  exactly as the crate does.
* The host toolchain and filesystem are abstracted into `Toolchain`
  (which files exist, which flags the compiler recognizes, which compilation
  jobs succeed).  The contract of `cc::Build::compile` — external to this
  repository — is modelled from the spec in `Toolchain.runCompile`.
* `mainRun` is the transcription of `fn main`, returning the observable
  outcome: the `cargo:` lines printed, the compiler invocations made, the
  artifacts produced, and success or the fatal error.
-/

namespace BuildRs

/-- A Rust `OsStr`/`Path`: either a valid-UTF-8 string or raw non-UTF-8
bytes.  `Path::to_str` succeeds exactly on the former. -/
inductive OsStr where
  | utf8 (s : String)
  | nonUtf8 (bytes : List Nat)
deriving DecidableEq

/-- Rust `Path::new` on a string literal (string literals are UTF-8). -/
def Path.new (s : String) : OsStr := .utf8 s

/-- Rust `Path::join` with a UTF-8 component, on a Unix host (separator `/`).
Joining a UTF-8 path with a UTF-8 component stays UTF-8. -/
def OsStr.join : OsStr → String → OsStr
  | .utf8 s, t => .utf8 (s ++ "/" ++ t)
  | .nonUtf8 b, t => .nonUtf8 (b ++ (t.toUTF8.toList.map UInt8.toNat))

/-- Rust `Path::to_str`: `Some` exactly when the path is valid UTF-8. -/
def OsStr.toStr : OsStr → Option String
  | .utf8 s => some s
  | .nonUtf8 _ => none

/-- The configuration accumulated by a `cc::Build` builder, restricted to the
methods the driver uses.  `cc::Build::new()` starts with C mode (not C++), no
include directories, no flags and no files. -/
structure Build where
  cppMode : Bool := false
  include_dirs : List OsStr := []
  flags_if_supported : List String := []
  files : List OsStr := []
deriving DecidableEq

/-- `cc::Build::new()`. -/
def Build.new : Build := {}

/-- `cc::Build::include`: append a header search directory. -/
def Build.include (b : Build) (d : OsStr) : Build :=
  { b with include_dirs := b.include_dirs ++ [d] }

/-- `cc::Build::flag_if_supported`: record a flag to be passed only if the
host toolchain recognizes it. -/
def Build.flag_if_supported (b : Build) (f : String) : Build :=
  { b with flags_if_supported := b.flags_if_supported ++ [f] }

/-- `cc::Build::cpp`: select C++ (`true`) or C (`false`) language mode. -/
def Build.cpp (b : Build) (v : Bool) : Build :=
  { b with cppMode := v }

/-- `cc::Build::file`: append a source file to compile. -/
def Build.file (b : Build) (p : OsStr) : Build :=
  { b with files := b.files ++ [p] }

/-- One actual invocation of the underlying compiler: language mode, header
search path, the flags actually passed (only the supported ones), the source
file, and the static-library artifact name the object is destined for. -/
structure CompilerCall where
  cppMode : Bool
  include_dirs : List OsStr
  flags : List String
  file : OsStr
  outName : String
deriving DecidableEq

/-- The fatal outcomes of the driver. -/
inductive BuildError where
  /-- A declared source file is absent (`MissingSource` in the spec). -/
  | missingSource (p : OsStr)
  /-- The underlying compiler rejected a file of the named job. -/
  | compilationFailure (outName : String)
  /-- A Rust `unwrap` panicked (`to_str()` returned `None`). -/
  | panicked
deriving DecidableEq

/-- The host toolchain and filesystem, abstracted: which paths exist, which
compiler flags the toolchain recognizes, and which compiler invocations
succeed. -/
structure Toolchain where
  fileExists : OsStr → Bool
  flagSupported : String → Bool
  compileOk : CompilerCall → Bool

/-- Modelled from the spec: the contract of `cc::Build::compile`, which is
external to this repository.  Per the spec's error taxonomy, an absent
declared source file is fatal and aborts before the compiler is invoked
(`MissingSource`); otherwise the if-supported flags are filtered to those the
toolchain recognizes (unrecognized flags are silently skipped, never fatal),
the compiler is invoked on each file, and a compiler rejection is fatal
(`CompilationFailure`).  On success the named static-library artifact is
produced.  Returns the compiler invocations actually made together with the
result. -/
def Toolchain.runCompile (tc : Toolchain) (b : Build) (outName : String) :
    List CompilerCall × Except BuildError String :=
  match b.files.find? (fun f => !(tc.fileExists f)) with
  | some f => ([], .error (.missingSource f))
  | none =>
    let calls := b.files.map (fun f =>
      { cppMode := b.cppMode
        include_dirs := b.include_dirs
        flags := b.flags_if_supported.filter tc.flagSupported
        file := f
        outName := outName : CompilerCall })
    if calls.all tc.compileOk then (calls, .ok outName)
    else (calls, .error (.compilationFailure outName))

/-- `let src_dir = Path::new("src");` -/
def src_dir : OsStr := Path.new "src"

/-- `let parser_path = src_dir.join("parser.c");` -/
def parser_path : OsStr := src_dir.join "parser.c"

/-- `let scanner_path = src_dir.join("scanner.cc");` -/
def scanner_path : OsStr := src_dir.join "scanner.cc"

/-- The parser job's configuration, exactly as `fn main` builds it:
`cc::Build::new()`, `.include(&src_dir)`, the three `flag_if_supported`
calls, `.file(&parser_path)`. -/
def c_config : Build :=
  ((((Build.new.include src_dir).flag_if_supported
      "-Wno-unused-parameter").flag_if_supported
      "-Wno-unused-but-set-variable").flag_if_supported
      "-Wno-trigraphs").file parser_path

/-- The scanner job's configuration, exactly as `fn main` builds it:
`cc::Build::new()`, `.cpp(true)`, `.include(&src_dir)`, the two
`flag_if_supported` calls, `.file(&scanner_path)`. -/
def cpp_config : Build :=
  (((((Build.new.cpp true).include src_dir).flag_if_supported
      "-Wno-unused-parameter").flag_if_supported
      "-Wno-unused-but-set-variable").file scanner_path)

/-- Everything observable about one run of the driver: the `cargo:` protocol
lines printed to stdout in order, the compiler invocations made in order, the
static-library artifacts produced in order, and the final result. -/
structure MainOutcome where
  emitted : List String
  compilerCalls : List CompilerCall
  artifacts : List String
  result : Except BuildError Unit

/-- Transcription of `fn main` of `bindings/rust/build.rs`, sequenced exactly
as the source: build `c_config`, print the parser rerun-if-changed line
(panicking if `to_str` fails), compile the parser job fatally on error, then
likewise for `cpp_config` and the scanner. -/
def mainRun (tc : Toolchain) : MainOutcome :=
  match parser_path.toStr with
  | none =>
    { emitted := [], compilerCalls := [], artifacts := [], result := .error .panicked }
  | some p1 =>
    let line1 := "cargo:rerun-if-changed=" ++ p1
    match tc.runCompile c_config "parser" with
    | (calls1, .error e) =>
      { emitted := [line1], compilerCalls := calls1, artifacts := [],
        result := .error e }
    | (calls1, .ok a1) =>
      match scanner_path.toStr with
      | none =>
        { emitted := [line1], compilerCalls := calls1, artifacts := [a1],
          result := .error .panicked }
      | some p2 =>
        let line2 := "cargo:rerun-if-changed=" ++ p2
        match tc.runCompile cpp_config "scanner" with
        | (calls2, .error e) =>
          { emitted := [line1, line2], compilerCalls := calls1 ++ calls2,
            artifacts := [a1], result := .error e }
        | (calls2, .ok a2) =>
          { emitted := [line1, line2], compilerCalls := calls1 ++ calls2,
            artifacts := [a1, a2], result := .ok () }

/-- The compiler invocation the parser job makes on toolchain `tc`. -/
def parserCall (tc : Toolchain) : CompilerCall :=
  { cppMode := false
    include_dirs := [src_dir]
    flags := ["-Wno-unused-parameter", "-Wno-unused-but-set-variable",
      "-Wno-trigraphs"].filter tc.flagSupported
    file := parser_path
    outName := "parser" }

/-- The compiler invocation the scanner job makes on toolchain `tc`. -/
def scannerCall (tc : Toolchain) : CompilerCall :=
  { cppMode := true
    include_dirs := [src_dir]
    flags := ["-Wno-unused-parameter", "-Wno-unused-but-set-variable"].filter
      tc.flagSupported
    file := scanner_path
    outName := "scanner" }

/-- The parser's dependency declaration line. -/
def parserLine : String := "cargo:rerun-if-changed=src/parser.c"

/-- The scanner's dependency declaration line. -/
def scannerLine : String := "cargo:rerun-if-changed=src/scanner.cc"

/-- A toolchain on which everything works: both sources exist, all flags are
recognized, every compilation succeeds. -/
def allGood : Toolchain :=
  { fileExists := fun _ => true
    flagSupported := fun _ => true
    compileOk := fun _ => true }

/-- A toolchain with an empty filesystem: no source file exists. -/
def noFiles : Toolchain :=
  { fileExists := fun _ => false
    flagSupported := fun _ => true
    compileOk := fun _ => true }

/-- A toolchain on which the C job succeeds but every C++ compilation fails. -/
def cppFails : Toolchain :=
  { fileExists := fun _ => true
    flagSupported := fun _ => true
    compileOk := fun c => !c.cppMode }

/-- A toolchain that recognizes none of the warning flags but compiles
everything. -/
def noFlags : Toolchain :=
  { fileExists := fun _ => true
    flagSupported := fun _ => false
    compileOk := fun _ => true }

section Scenarios

variable (tc : Toolchain)

lemma runCompile_c (h : tc.fileExists parser_path = true) :
    tc.runCompile c_config "parser" =
      ([parserCall tc],
        if tc.compileOk (parserCall tc) then .ok "parser"
        else .error (.compilationFailure "parser")) := by
  simp only [Toolchain.runCompile, c_config, Build.new, Build.include,
    Build.flag_if_supported, Build.file, List.nil_append, List.find?, h,
    Bool.not_true, List.map, parserCall, List.all_cons, List.all_nil,
    Bool.and_true]
  by_cases hc : tc.compileOk
      { cppMode := false, include_dirs := [src_dir],
        flags := ["-Wno-unused-parameter", "-Wno-unused-but-set-variable",
          "-Wno-trigraphs"].filter tc.flagSupported,
        file := parser_path, outName := "parser" } <;>
    simp [hc]

lemma runCompile_cpp (h : tc.fileExists scanner_path = true) :
    tc.runCompile cpp_config "scanner" =
      ([scannerCall tc],
        if tc.compileOk (scannerCall tc) then .ok "scanner"
        else .error (.compilationFailure "scanner")) := by
  simp only [Toolchain.runCompile, cpp_config, Build.new, Build.cpp,
    Build.include, Build.flag_if_supported, Build.file, List.nil_append,
    List.find?, h, Bool.not_true, List.map, scannerCall, List.all_cons,
    List.all_nil, Bool.and_true]
  by_cases hc : tc.compileOk
      { cppMode := true, include_dirs := [src_dir],
        flags := ["-Wno-unused-parameter",
          "-Wno-unused-but-set-variable"].filter tc.flagSupported,
        file := scanner_path, outName := "scanner" } <;>
    simp [hc]

lemma runCompile_c_missing (h : tc.fileExists parser_path = false) :
    tc.runCompile c_config "parser" =
      ([], .error (.missingSource parser_path)) := by
  simp [Toolchain.runCompile, c_config, Build.new, Build.include,
    Build.flag_if_supported, Build.file, h]

lemma runCompile_cpp_missing (h : tc.fileExists scanner_path = false) :
    tc.runCompile cpp_config "scanner" =
      ([], .error (.missingSource scanner_path)) := by
  simp [Toolchain.runCompile, cpp_config, Build.new, Build.cpp, Build.include,
    Build.flag_if_supported, Build.file, h]

lemma mainRun_missing_c (h : tc.fileExists parser_path = false) :
    mainRun tc =
      { emitted := [parserLine], compilerCalls := [], artifacts := [],
        result := .error (.missingSource parser_path) } := by
  simp only [mainRun, runCompile_c_missing tc h]
  rfl

lemma mainRun_c_fails (h : tc.fileExists parser_path = true)
    (hc : tc.compileOk (parserCall tc) = false) :
    mainRun tc =
      { emitted := [parserLine], compilerCalls := [parserCall tc],
        artifacts := [], result := .error (.compilationFailure "parser") } := by
  simp only [mainRun, runCompile_c tc h, hc, if_false]
  rfl

lemma mainRun_missing_cpp (h : tc.fileExists parser_path = true)
    (hc : tc.compileOk (parserCall tc) = true)
    (h2 : tc.fileExists scanner_path = false) :
    mainRun tc =
      { emitted := [parserLine, scannerLine], compilerCalls := [parserCall tc],
        artifacts := ["parser"],
        result := .error (.missingSource scanner_path) } := by
  simp only [mainRun, runCompile_c tc h, hc, if_true,
    runCompile_cpp_missing tc h2]
  rfl

lemma mainRun_cpp_fails (h : tc.fileExists parser_path = true)
    (hc : tc.compileOk (parserCall tc) = true)
    (h2 : tc.fileExists scanner_path = true)
    (hc2 : tc.compileOk (scannerCall tc) = false) :
    mainRun tc =
      { emitted := [parserLine, scannerLine],
        compilerCalls := [parserCall tc, scannerCall tc],
        artifacts := ["parser"],
        result := .error (.compilationFailure "scanner") } := by
  simp only [mainRun, runCompile_c tc h, hc, if_true, runCompile_cpp tc h2,
    hc2, if_false]
  rfl

lemma mainRun_ok (h : tc.fileExists parser_path = true)
    (hc : tc.compileOk (parserCall tc) = true)
    (h2 : tc.fileExists scanner_path = true)
    (hc2 : tc.compileOk (scannerCall tc) = true) :
    mainRun tc =
      { emitted := [parserLine, scannerLine],
        compilerCalls := [parserCall tc, scannerCall tc],
        artifacts := ["parser", "scanner"], result := .ok () } := by
  simp only [mainRun, runCompile_c tc h, hc, if_true, runCompile_cpp tc h2,
    hc2]
  rfl

end Scenarios

/-- The outcome of `mainRun` in closed form, by cases on the toolchain:
parser source missing, parser compilation failing, scanner source missing,
scanner compilation failing, or everything succeeding. -/
def outcomeOf (tc : Toolchain) : MainOutcome :=
  if tc.fileExists parser_path = true then
    if tc.compileOk (parserCall tc) = true then
      if tc.fileExists scanner_path = true then
        if tc.compileOk (scannerCall tc) = true then
          { emitted := [parserLine, scannerLine]
            compilerCalls := [parserCall tc, scannerCall tc]
            artifacts := ["parser", "scanner"], result := .ok () }
        else
          { emitted := [parserLine, scannerLine]
            compilerCalls := [parserCall tc, scannerCall tc]
            artifacts := ["parser"]
            result := .error (.compilationFailure "scanner") }
      else
        { emitted := [parserLine, scannerLine]
          compilerCalls := [parserCall tc]
          artifacts := ["parser"]
          result := .error (.missingSource scanner_path) }
    else
      { emitted := [parserLine], compilerCalls := [parserCall tc]
        artifacts := [], result := .error (.compilationFailure "parser") }
  else
    { emitted := [parserLine], compilerCalls := [], artifacts := []
      result := .error (.missingSource parser_path) }

lemma mainRun_eq_outcomeOf (tc : Toolchain) : mainRun tc = outcomeOf tc := by
  rcases Bool.eq_false_or_eq_true (tc.fileExists parser_path) with h | h
  · rcases Bool.eq_false_or_eq_true (tc.compileOk (parserCall tc)) with hc | hc
    · rcases Bool.eq_false_or_eq_true (tc.fileExists scanner_path) with
        h2 | h2
      · rcases Bool.eq_false_or_eq_true (tc.compileOk (scannerCall tc)) with
          hc2 | hc2
        · rw [mainRun_ok tc h hc h2 hc2]; simp [outcomeOf, h, hc, h2, hc2]
        · rw [mainRun_cpp_fails tc h hc h2 hc2]
          simp [outcomeOf, h, hc, h2, hc2]
      · rw [mainRun_missing_cpp tc h hc h2]; simp [outcomeOf, h, hc, h2]
    · rw [mainRun_c_fails tc h hc]; simp [outcomeOf, h, hc]
  · rw [mainRun_missing_c tc h]; simp [outcomeOf, h]

lemma emitted_of_ok (tc : Toolchain) (h : (mainRun tc).result = .ok ()) :
    (mainRun tc).emitted = [parserLine, scannerLine] := by
  rw [mainRun_eq_outcomeOf] at h ⊢
  unfold outcomeOf at h ⊢
  split_ifs at h ⊢
  simp_all

/-- C1: on a toolchain where both declared sources exist and both
compilation jobs succeed, the driver produces exactly the two artifacts
"parser" and "scanner" and terminates successfully. -/
theorem main_two_artifacts (tc : Toolchain)
    (h : tc.fileExists parser_path = true)
    (h2 : tc.fileExists scanner_path = true)
    (hc : tc.compileOk (parserCall tc) = true)
    (hc2 : tc.compileOk (scannerCall tc) = true) :
    (mainRun tc).artifacts = ["parser", "scanner"] ∧
      (mainRun tc).result = .ok () := by
  rw [mainRun_ok tc h hc h2 hc2]
  exact ⟨rfl, rfl⟩

/-- Witness for C1 at the concrete toolchain `allGood`. -/
theorem main_two_artifacts_witness :
    allGood.fileExists parser_path = true ∧
      allGood.fileExists scanner_path = true ∧
      allGood.compileOk (parserCall allGood) = true ∧
      allGood.compileOk (scannerCall allGood) = true ∧
      ((mainRun allGood).artifacts = ["parser", "scanner"] ∧
        (mainRun allGood).result = .ok ()) :=
  ⟨rfl, rfl, rfl, rfl, main_two_artifacts allGood rfl rfl rfl rfl⟩

/-- C2: the parser compilation job is configured with language mode C (not
C++), header search path "src", exactly the three warning-suppression flags
in order, the single source file src/parser.c, and output artifact name
"parser"; on every invocation reaching the compiler, the first compiler
invocation is exactly this job. -/
theorem parser_job_configuration :
    c_config.cppMode = false ∧
      c_config.include_dirs = [Path.new "src"] ∧
      c_config.flags_if_supported =
        ["-Wno-unused-parameter", "-Wno-unused-but-set-variable",
          "-Wno-trigraphs"] ∧
      c_config.files = [(Path.new "src").join "parser.c"] ∧
      ∀ tc : Toolchain, tc.fileExists parser_path = true →
        (mainRun tc).compilerCalls.head? = some (parserCall tc) ∧
          (parserCall tc).outName = "parser" := by
  refine ⟨rfl, rfl, rfl, rfl, fun tc h => ⟨?_, rfl⟩⟩
  rw [mainRun_eq_outcomeOf]
  unfold outcomeOf
  simp only [h, if_true]
  split_ifs <;> rfl

/-- Witness for C2 at the concrete toolchain `allGood`. -/
theorem parser_job_configuration_witness :
    allGood.fileExists parser_path = true ∧
      ((mainRun allGood).compilerCalls.head? = some (parserCall allGood) ∧
        (parserCall allGood).outName = "parser") :=
  ⟨rfl, parser_job_configuration.2.2.2.2 allGood rfl⟩

/-- C3: the scanner compilation job is configured as a second job with
language mode C++, the same header search path "src", exactly the two
warning-suppression flags (no trigraph suppression), the single source file
src/scanner.cc, and output artifact name "scanner"; whenever the parser job
has succeeded and the scanner source exists, the second compiler invocation
is exactly this job. -/
theorem scanner_job_configuration :
    cpp_config.cppMode = true ∧
      cpp_config.include_dirs = [Path.new "src"] ∧
      cpp_config.flags_if_supported =
        ["-Wno-unused-parameter", "-Wno-unused-but-set-variable"] ∧
      cpp_config.files = [(Path.new "src").join "scanner.cc"] ∧
      ∀ tc : Toolchain, tc.fileExists parser_path = true →
        tc.compileOk (parserCall tc) = true →
        tc.fileExists scanner_path = true →
        (mainRun tc).compilerCalls.get? 1 = some (scannerCall tc) ∧
          (scannerCall tc).outName = "scanner" := by
  refine ⟨rfl, rfl, rfl, rfl, fun tc h hc h2 => ⟨?_, rfl⟩⟩
  rw [mainRun_eq_outcomeOf]
  unfold outcomeOf
  simp only [h, hc, h2, if_true]
  split_ifs <;> rfl

/-- Witness for C3 at the concrete toolchain `allGood`. -/
theorem scanner_job_configuration_witness :
    allGood.fileExists parser_path = true ∧
      allGood.compileOk (parserCall allGood) = true ∧
      allGood.fileExists scanner_path = true ∧
      ((mainRun allGood).compilerCalls.get? 1 = some (scannerCall allGood) ∧
        (scannerCall allGood).outName = "scanner") :=
  ⟨rfl, rfl, rfl, scanner_job_configuration.2.2.2.2 allGood rfl rfl rfl⟩

/-- C4 counterexample: not every invocation emits two dependency
declarations.  On a toolchain where the parser source is absent, the driver
aborts after printing only the parser's declaration, so exactly one line is
emitted. -/
theorem two_rerun_lines_counterexample :
    (mainRun noFiles).emitted = [parserLine] ∧
      (mainRun noFiles).emitted.length ≠ 2 := by
  rw [mainRun_missing_c noFiles rfl]
  exact ⟨rfl, by decide⟩

/-- C4 amended: every invocation that terminates successfully emits exactly
two dependency-tracking declarations, one naming src/parser.c and one naming
src/scanner.cc, each in the cargo:rerun-if-changed protocol (an invocation
that fails at the parser stage emits only the parser's declaration). -/
theorem two_rerun_lines_of_success (tc : Toolchain)
    (h : (mainRun tc).result = .ok ()) :
    (mainRun tc).emitted = [parserLine, scannerLine] :=
  emitted_of_ok tc h

/-- Witness for the amended C4 at the concrete toolchain `allGood`. -/
theorem two_rerun_lines_of_success_witness :
    (mainRun allGood).result = .ok () ∧
      (mainRun allGood).emitted = [parserLine, scannerLine] :=
  ⟨rfl, two_rerun_lines_of_success allGood rfl⟩

/-- C5: if the parser source src/parser.c is absent, the driver fails with a
missing-source error, makes no compiler invocation at all (in particular it
never attempts the scanner job), and produces no artifact — it never reports
success. -/
theorem missing_parser_aborts (tc : Toolchain)
    (h : tc.fileExists parser_path = false) :
    (mainRun tc).result = .error (.missingSource parser_path) ∧
      (mainRun tc).compilerCalls = [] ∧
      (mainRun tc).artifacts = [] ∧
      (mainRun tc).result ≠ .ok () := by
  rw [mainRun_missing_c tc h]
  exact ⟨rfl, rfl, rfl, by simp⟩

/-- Witness for C5 at the concrete toolchain `noFiles`. -/
theorem missing_parser_aborts_witness :
    noFiles.fileExists parser_path = false ∧
      ((mainRun noFiles).result = .error (.missingSource parser_path) ∧
        (mainRun noFiles).compilerCalls = [] ∧
        (mainRun noFiles).artifacts = [] ∧
        (mainRun noFiles).result ≠ .ok ()) :=
  ⟨rfl, missing_parser_aborts noFiles rfl⟩

/-- C6: a warning-suppression flag the host toolchain does not recognize is
silently skipped — it reaches no compiler invocation — and the build does
not fail on account of it: with both sources present and the toolchain
accepting both (flag-filtered) jobs, the run still succeeds. -/
theorem unsupported_flag_skipped (tc : Toolchain) (f : String)
    (hf : tc.flagSupported f = false)
    (h : tc.fileExists parser_path = true)
    (h2 : tc.fileExists scanner_path = true)
    (hc : tc.compileOk (parserCall tc) = true)
    (hc2 : tc.compileOk (scannerCall tc) = true) :
    (∀ c ∈ (mainRun tc).compilerCalls, f ∉ c.flags) ∧
      (mainRun tc).result = .ok () := by
  rw [mainRun_ok tc h hc h2 hc2]
  refine ⟨?_, rfl⟩
  intro c hmem
  simp only [List.mem_cons, List.not_mem_nil, or_false] at hmem
  rcases hmem with rfl | rfl
  · simp [parserCall, List.mem_filter, hf]
  · simp [scannerCall, List.mem_filter, hf]

/-- Witness for C6 at the toolchain `noFlags`, which recognizes no flag but
compiles everything. -/
theorem unsupported_flag_skipped_witness :
    noFlags.flagSupported "-Wno-trigraphs" = false ∧
      noFlags.fileExists parser_path = true ∧
      noFlags.fileExists scanner_path = true ∧
      noFlags.compileOk (parserCall noFlags) = true ∧
      noFlags.compileOk (scannerCall noFlags) = true ∧
      ((∀ c ∈ (mainRun noFlags).compilerCalls,
          "-Wno-trigraphs" ∉ c.flags) ∧
        (mainRun noFlags).result = .ok ()) :=
  ⟨rfl, rfl, rfl, rfl, rfl,
    unsupported_flag_skipped noFlags "-Wno-trigraphs" rfl rfl rfl rfl rfl⟩

/-- C7 counterexample: a failed invocation can leave a partial artifact.  On
a toolchain where the parser compiles but every C++ compilation fails, the
run fails, yet the parser artifact has already been produced. -/
theorem no_partial_artifact_counterexample :
    cppFails.fileExists parser_path = true ∧
      cppFails.fileExists scanner_path = true ∧
      cppFails.compileOk (scannerCall cppFails) = false ∧
      (mainRun cppFails).result = .error (.compilationFailure "scanner") ∧
      (mainRun cppFails).artifacts = ["parser"] :=
  ⟨rfl, rfl, rfl, rfl, rfl⟩

/-- C7 amended: if the toolchain fails to compile either source file (both
sources present), the whole build fails fatally; no job is retried (each
compiler invocation is distinct); the failing job yields no artifact, so the
artifacts are either none (parser failed) or the parser artifact alone
(scanner failed) — the complete pair is never produced. -/
theorem compile_failure_fatal (tc : Toolchain)
    (h : tc.fileExists parser_path = true)
    (h2 : tc.fileExists scanner_path = true)
    (hfail : tc.compileOk (parserCall tc) = false ∨
      tc.compileOk (scannerCall tc) = false) :
    (mainRun tc).result ≠ .ok () ∧
      (mainRun tc).compilerCalls.Nodup ∧
      ((mainRun tc).artifacts = [] ∨ (mainRun tc).artifacts = ["parser"]) ∧
      (mainRun tc).artifacts ≠ ["parser", "scanner"] := by
  rcases Bool.eq_false_or_eq_true (tc.compileOk (parserCall tc)) with hc | hc
  · have hc2 : tc.compileOk (scannerCall tc) = false := by
      rcases hfail with hfail | hfail
      · rw [hc] at hfail; cases hfail
      · exact hfail
    rw [mainRun_cpp_fails tc h hc h2 hc2]
    refine ⟨by simp, ?_, Or.inr rfl, by simp⟩
    simp [List.nodup_cons, parserCall, scannerCall]
  · rw [mainRun_c_fails tc h hc]
    refine ⟨by simp, by simp, Or.inl rfl, by simp⟩

/-- Witness for the amended C7 at the concrete toolchain `cppFails`. -/
theorem compile_failure_fatal_witness :
    cppFails.fileExists parser_path = true ∧
      cppFails.fileExists scanner_path = true ∧
      cppFails.compileOk (scannerCall cppFails) = false ∧
      ((mainRun cppFails).result ≠ .ok () ∧
        (mainRun cppFails).compilerCalls.Nodup ∧
        ((mainRun cppFails).artifacts = [] ∨
          (mainRun cppFails).artifacts = ["parser"]) ∧
        (mainRun cppFails).artifacts ≠ ["parser", "scanner"]) :=
  ⟨rfl, rfl, rfl, compile_failure_fatal cppFails rfl rfl (Or.inr rfl)⟩

/-- The textual marker of cargo's rebuild protocol. -/
def rerunMarker : String := "cargo:rerun-if-changed="

/-- The path declared by one emitted line, when the line is a dependency
declaration of the cargo:rerun-if-changed protocol. -/
def declaredPath (l : String) : Option String :=
  if rerunMarker.toList.isPrefixOf l.toList then
    some (String.mk (l.toList.drop rerunMarker.toList.length))
  else none

/-- The paths watched by the dependency declarations among the emitted
lines. -/
def watchedPaths (ls : List String) : List String :=
  ls.filterMap declaredPath

/-- Modelled from the spec: the enclosing build system's rebuild rule is
external to this repository; per the spec, a dependency declaration triggers
a re-run exactly when the file it names has changed.  `triggeredPaths`
collects the watched paths whose declarations fire. -/
def triggeredPaths (changed : String → Bool) (ls : List String) :
    List String :=
  (watchedPaths ls).filter changed

/-- C8: for a change confined to the scanner source (scanner changed, parser
unchanged), the declarations emitted by a successful run trigger a rebuild
only via the scanner's declaration: the triggered watched paths are exactly
src/scanner.cc, not src/parser.c. -/
theorem scanner_change_triggers_only_scanner (tc : Toolchain)
    (changed : String → Bool)
    (hok : (mainRun tc).result = .ok ())
    (hs : changed "src/scanner.cc" = true)
    (hp : changed "src/parser.c" = false) :
    triggeredPaths changed (mainRun tc).emitted = ["src/scanner.cc"] := by
  rw [emitted_of_ok tc hok]
  have e1 : declaredPath parserLine = some "src/parser.c" := by decide
  have e2 : declaredPath scannerLine = some "src/scanner.cc" := by decide
  simp [triggeredPaths, watchedPaths, e1, e2, hs, hp]

/-- Witness for C8: `allGood` toolchain, with exactly the scanner source
changed. -/
theorem scanner_change_triggers_only_scanner_witness :
    (mainRun allGood).result = .ok () ∧
      (fun s => s == "src/scanner.cc") "src/scanner.cc" = true ∧
      (fun s => s == "src/scanner.cc") "src/parser.c" = false ∧
      triggeredPaths (fun s => s == "src/scanner.cc")
        (mainRun allGood).emitted = ["src/scanner.cc"] :=
  ⟨rfl, rfl, by decide,
    scanner_change_triggers_only_scanner allGood
      (fun s => s == "src/scanner.cc") rfl rfl (by decide)⟩

/-- C9: the driver is deterministic.  Two invocations against the same
sources and toolchain (same filesystem, same recognized flags, same compiler
behaviour) have identical outcomes: in particular the driver passes
identical configuration (files, flags, includes, artifact names) to the
toolchain on both runs and the produced artifacts are identical. -/
theorem driver_deterministic (tc1 tc2 : Toolchain)
    (hf : tc1.fileExists = tc2.fileExists)
    (hs : tc1.flagSupported = tc2.flagSupported)
    (hc : tc1.compileOk = tc2.compileOk) :
    mainRun tc1 = mainRun tc2 ∧
      (mainRun tc1).compilerCalls = (mainRun tc2).compilerCalls ∧
      (mainRun tc1).artifacts = (mainRun tc2).artifacts := by
  obtain ⟨f1, s1, c1⟩ := tc1
  obtain ⟨f2, s2, c2⟩ := tc2
  cases hf
  cases hs
  cases hc
  exact ⟨rfl, rfl, rfl⟩

/-- Witness for C9 at the concrete toolchain `allGood` twice. -/
theorem driver_deterministic_witness :
    mainRun allGood = mainRun allGood ∧
      (mainRun allGood).compilerCalls = (mainRun allGood).compilerCalls ∧
      (mainRun allGood).artifacts = (mainRun allGood).artifacts :=
  driver_deterministic allGood allGood rfl rfl rfl

/-- C10: the two `to_str().unwrap()` calls never panic: the watched paths
are the fixed relative paths src/parser.c and src/scanner.cc, valid UTF-8 by
construction, so `to_str` succeeds on both and no run of the driver ends in
the unwrap panic. -/
theorem to_str_unwrap_safe :
    parser_path.toStr = some "src/parser.c" ∧
      scanner_path.toStr = some "src/scanner.cc" ∧
      ∀ tc : Toolchain, (mainRun tc).result ≠ .error .panicked := by
  refine ⟨rfl, rfl, fun tc => ?_⟩
  rw [mainRun_eq_outcomeOf]
  unfold outcomeOf
  split_ifs <;> simp

end BuildRs
